import Mathlib

/-!
Verification of the task-graph submission pipeline of mozilla-taskcluster
(src/jobs/taskcluster_graph.js): template version detection, variable
substitution, scope union/propagation, task-group id derivation, and
sequential submission with partial-failure handling.

JavaScript objects are embedded as Lean structures carrying the fields the
code touches; fields a JS object may lack are `Option`s. External
collaborators (the YAML loader, the mustache-based `instantiate` renderer,
the HTTP layer, and the queue client) are passed in as function parameters,
so every theorem quantifies over their possible behaviours. Thrown JS
errors are modelled as `Except String` with the error's string form.
-/

namespace TCGraph

/-- The `env` object of a task payload: the `ERROR_MSG` field the code
touches, plus the remaining fields kept opaque. -/
structure Env where
  errorMsg : Option String
  rest : List (String × String)
deriving Repr, DecidableEq

/-- A task `payload`: its optional `env` object plus opaque remaining
fields. -/
structure Payload where
  env : Option Env
  rest : List (String × String)
deriving Repr, DecidableEq

/-- A task definition document: the fields read or written by
`scheduleTaskGroup` / `renderTemplateV0` (`scopes`, `taskGroupId`,
`schedulerId`, `payload`), plus opaque remaining fields. `scopes` is
`none` when the template omitted the field. -/
structure TaskDef where
  scopes : Option (List String)
  taskGroupId : Option String
  schedulerId : Option String
  payload : Payload
  rest : List (String × String)
deriving Repr, DecidableEq

/-- One entry of a rendered template's `tasks` array: either a bare task
definition or a version-0 style wrapper object whose `task` property holds
the definition. -/
inductive Entry where
  | bare (td : TaskDef)
  | wrapped (td : TaskDef)
deriving Repr, DecidableEq

/-- A rendered template: its `tasks` array (other graph-level fields are
ignored by the code). -/
structure Graph where
  tasks : List Entry
deriving Repr, DecidableEq

/-- The template variables; only `level` is consumed structurally by the
core (for the scheduler id); the rest are opaque string bindings handed to
the renderer. -/
structure Vars where
  level : Int
  rest : List (String × String)
deriving Repr, DecidableEq

/-- A structured document as returned by `yaml.safeLoad`, restricted to
the only field the code reads: `version` (absent = `none`). -/
structure YamlDoc where
  version : Option Int
deriving Repr, DecidableEq

/-- Normalizing an entry to its inner task definition: the code's
`if (task.task) taskDefinition = task.task` unwrap (lines 140-145). -/
def entryDef : Entry → TaskDef
  | .bare td => td
  | .wrapped td => td

/-- One insertion into a JS `Set` materialized as an insertion-ordered
duplicate-free list: a member is skipped, a new element appended. -/
def jsSetInsert (acc : List String) (x : String) : List String :=
  if x ∈ acc then acc else acc ++ [x]

/-- The list `Array.from(new Set(l))` yields: first occurrences of `l` in
order (lines 151-152). -/
def jsSetList (l : List String) : List String :=
  l.foldl jsSetInsert []

/-- Everything observable about one run of the submission loop: the
`createTask` calls issued in order (task id and the definition as
submitted, a failed call included), and the error propagated to the
caller, when one was thrown. -/
structure SubmitOutcome where
  calls : List (String × TaskDef)
  failed : Option String
deriving Repr, DecidableEq

/-- The task-submission loop of `scheduleTaskGroup` (lines 132-171).
`client i tid td` is the queue's response to the `i`-th `createTask` call
(`none` = success, `some e` = rejection, thrown and rethrown by the code);
`ids i` is the `i`-th `slugid.nice()` draw; `gid` is the running `groupId`
variable, the empty string standing for JS `undefined` (both falsy). Per
task: draw a fresh id, adopt it as group id if none is set yet, unwrap the
entry, union its scopes with the project scopes via a `Set`, overwrite
`taskGroupId`, then call `createTask`; a rejection aborts the loop. -/
def submitTasks (scopes : List String) (client : Nat → String → TaskDef → Option String)
    (ids : Nat → String) : List Entry → Nat → String → SubmitOutcome
  | [], _, _ => ⟨[], none⟩
  | e :: restEntries, i, gid =>
      let taskId := ids i
      let gid' := if gid = "" then taskId else gid
      let td0 := entryDef e
      let td : TaskDef :=
        { td0 with
          scopes := some (jsSetList ((td0.scopes.getD []) ++ scopes)),
          taskGroupId := some gid' }
      match client i taskId td with
      | none =>
          let r := submitTasks scopes client ids restEntries (i + 1) gid'
          ⟨(taskId, td) :: r.calls, r.failed⟩
      | some err => ⟨[(taskId, td)], some err⟩

/-- Whether `pat` occurs as a contiguous run inside `l`: the JS
`template.indexOf(pat) !== -1` test. -/
def containsSeq (pat : List Char) : List Char → Bool
  | [] => pat.isEmpty
  | c :: cs => pat.isPrefixOf (c :: cs) || containsSeq pat cs

/-- The legacy-version sniff of `renderTemplate` (line 184): does the raw
template text contain the literal substring "version: 0". -/
def containsVersion0 (template : String) : Bool :=
  containsSeq "version: 0".toList template.toList

/-- The error message thrown when setting a property on `undefined`,
which is what `task.task.schedulerId = ...` does on a bare entry. -/
def typeErrorSetOnUndefined : String :=
  "TypeError: Cannot set property of undefined"

/-- The scheduler-id injection loop of `renderTemplateV0` (lines 202-204):
`task.task.schedulerId = schedulerId` for each entry, in order. A wrapped
entry gets the scheduler id written into its inner definition; on a bare
entry `task.task` is `undefined` and the assignment throws. -/
def injectSchedulerId (schedulerId : String) : List Entry → Except String (List Entry)
  | [] => .ok []
  | .wrapped td :: es =>
      (injectSchedulerId schedulerId es).map
        (fun es' => .wrapped { td with schedulerId := some schedulerId } :: es')
  | .bare _ :: _ => .error typeErrorSetOnUndefined

/-- The version-0 renderer `renderTemplateV0` (lines 198-207): build the
scheduler id "gecko-level-" + level, render the raw text through
`instantiate` (mustache substitution followed by a YAML parse, supplied
as a parameter since its module is an external collaborator), then inject
the scheduler id into every task. -/
def renderTemplateV0 (instantiate : String → Vars → Except String Graph)
    (template : String) (templateVariables : Vars) : Except String Graph :=
  let schedulerId := "gecko-level-" ++ toString templateVariables.level
  match instantiate template templateVariables with
  | .error e => .error e
  | .ok g => (injectSchedulerId schedulerId g.tasks).map (fun ts => ⟨ts⟩)

/-- The unsupported-version error thrown by `renderTemplate` (line 194). -/
def unrecognizedVersionError : String :=
  "Error: Unrecognized .taskcluster.yml version"

/-- The version-detecting renderer `renderTemplate` (lines 174-196).
`safeLoad` stands for the external `yaml.safeLoad`. Try a strict parse to
read `version`; if parsing fails but the raw text contains "version: 0",
take the version to be 0; otherwise rethrow the parse error. Version 0
dispatches to `renderTemplateV0`; any other detected version (a different
number, or an absent field) throws the unrecognized-version error. -/
def renderTemplate (safeLoad : String → Except String YamlDoc)
    (instantiate : String → Vars → Except String Graph)
    (template : String) (templateVariables : Vars) : Except String Graph :=
  let version : Except String (Option Int) :=
    match safeLoad template with
    | .ok data => .ok data.version
    | .error e => if containsVersion0 template then .ok (some 0) else .error e
  match version with
  | .error e => .error e
  | .ok v =>
      if v = some 0 then renderTemplateV0 instantiate template templateVariables
      else .error unrecognizedVersionError

/-- The error-template fallback body of `scheduleTaskGroup` (lines
126-127), applied to the graph rendered from the error template:
`tasks[0].task.payload.env = tasks[0].task.payload.env || hole;
tasks[0].task.payload.env.ERROR_MSG = e.toString()`. The `env` object is
created when absent and `ERROR_MSG` is then assigned. Reading `.task` of
an absent first entry, or `.payload` through a bare first entry's missing
`task` property, throws. -/
def applyErrorFallback (g : Graph) (msg : String) : Except String Graph :=
  match g.tasks with
  | [] => .error typeErrorSetOnUndefined
  | .bare _ :: _ => .error typeErrorSetOnUndefined
  | .wrapped td :: restTasks =>
      let env := td.payload.env.getD ⟨none, []⟩
      let env' : Env := { env with errorMsg := some msg }
      .ok ⟨.wrapped { td with payload := { td.payload with env := some env' } } :: restTasks⟩

/-- The render-or-fallback phase of `scheduleTaskGroup` (lines 117-128):
render the template; on any thrown error, render the project's error
template with the same variables through `instantiate` and stamp the
error's string form into the first task's payload environment. An error
thrown by the fallback itself escapes uncaught. -/
def renderOrFallback (safeLoad : String → Except String YamlDoc)
    (instantiate : String → Vars → Except String Graph)
    (template : String) (templateVariables : Vars)
    (errorGraphTemplate : String) : Except String Graph :=
  match renderTemplate safeLoad instantiate template templateVariables with
  | .ok g => .ok g
  | .error e =>
      match instantiate errorGraphTemplate templateVariables with
      | .error e2 => .error e2
      | .ok g => applyErrorFallback g e

instance {ε α : Type} [DecidableEq ε] [DecidableEq α] : DecidableEq (Except ε α) :=
  fun x y =>
    match x, y with
    | .ok a, .ok b => decidable_of_iff (a = b) (by simp)
    | .error a, .error b => decidable_of_iff (a = b) (by simp)
    | .ok _, .error _ => .isFalse (by simp)
    | .error _, .ok _ => .isFalse (by simp)

/-- Everything observable about one `scheduleTaskGroup` run: the
`createTask` calls issued and the overall result (an uncaught error, or
normal completion). -/
structure ScheduleResult where
  calls : List (String × TaskDef)
  result : Except String Unit
deriving Repr, DecidableEq

/-- The whole of `scheduleTaskGroup` (lines 113-172): render (with the
error-template fallback), then submit every task of the rendered graph in
order, starting with no group id set. -/
def scheduleTaskGroup (safeLoad : String → Except String YamlDoc)
    (instantiate : String → Vars → Except String Graph)
    (client : Nat → String → TaskDef → Option String) (ids : Nat → String)
    (template : String) (templateVariables : Vars) (scopes : List String)
    (errorGraphTemplate : String) : ScheduleResult :=
  match renderOrFallback safeLoad instantiate template templateVariables errorGraphTemplate with
  | .error e => ⟨[], .error e⟩
  | .ok g =>
      let out := submitTasks scopes client ids g.tasks 0 ""
      ⟨out.calls, match out.failed with
        | some e => .error e
        | none => .ok ()⟩

def GRAPH_RETIRES : Nat := 2

def GRAPH_INTERVAL : Nat := 5000

def GRAPH_REQ_TIMEOUT : Nat := 30000

/-- Modelled from the spec: the retry combinator of the external
promise-retries dependency, called by `fetchGraph` with
`interval = GRAPH_INTERVAL` and retry count `GRAPH_RETIRES` (line 214);
the spec describes it as "up to 2 retries with a fixed 5s inter-attempt
interval, retrying on any network-level or non-2xx response error", i.e.
at most retries+1 attempts, surfacing the last attempt's error on
exhaustion. `attempt i` is the outcome of the `i`-th HTTP GET (the
request body on success, the thrown error otherwise); the returned pair
counts the attempts actually made alongside the final outcome. -/
def retryRun (attempt : Nat → Except String String) :
    Nat → Nat → Nat × Except String String
  | retriesLeft, i =>
    match attempt i with
    | .ok v => (1, .ok v)
    | .error e =>
        match retriesLeft with
        | 0 => (1, .error e)
        | n + 1 =>
            let r := retryRun attempt n (i + 1)
            (r.1 + 1, r.2)

/-- The graph fetcher `fetchGraph` (lines 212-228): assert the url is
present (an empty string is falsy and fails the assertion), run the HTTP
GET under the retry policy, and on exhaustion wrap the cause in an error
naming the url ("Could not fetch graph at " + url + newline + the
cause). -/
def fetchGraph (attempt : Nat → Except String String) (url : String) :
    Nat × Except String String :=
  if url = "" then (0, .error "AssertionError: url is required")
  else
    let r := retryRun attempt GRAPH_RETIRES 0
    match r.2 with
    | .ok v => (r.1, .ok v)
    | .error e => (r.1, .error ("Could not fetch graph at " ++ url ++ "\n " ++ e))

/-- The fields of Node's legacy `URL.parse` result read by `parseUrl`:
`protocol` (scheme with its trailing colon, `none` when the URL has no
scheme), `host` (hostname with optional port), and `path`. Supplied as a
parameter, the parser being part of the Node standard library. -/
structure UrlParts where
  protocol : Option String
  host : String
  path : String
deriving Repr, DecidableEq

/-- Splitting a character sequence at slashes into its segments (the
segment list is never empty). -/
def splitSlash : List Char → List (List Char)
  | [] => [[]]
  | c :: cs =>
      match splitSlash cs with
      | [] => [[]]
      | seg :: segs => if c = '/' then [] :: seg :: segs else (c :: seg) :: segs

/-- One step of path normalization: drop empty and "." segments, let ".."
pop the last kept segment (staying at the root when there is none), and
keep everything else, accumulating in reverse. -/
def resolveSegs : List (List Char) → List (List Char) → List (List Char)
  | acc, [] => acc.reverse
  | acc, s :: segs =>
      if s = [] || s = ['.'] then resolveSegs acc segs
      else if s = ['.', '.'] then resolveSegs acc.tail segs
      else resolveSegs (s :: acc) segs

/-- Node's `Path.resolve` on a single absolute path (line 32): normalize
"." / ".." / duplicate and trailing slashes, yielding "/" for the root. -/
def pathResolve (p : String) : String :=
  String.mk ('/' :: List.intercalate ['/'] (resolveSegs [] (splitSlash p.toList)))

/-- The result shape of `parseUrl`. -/
structure ParsedUrl where
  path : String
  host : String
deriving Repr, DecidableEq

/-- The URL resolver `parseUrl` (lines 30-40): parse the url (via the
supplied `urlParse`, Node's `URL.parse`), normalize its path with
`Path.resolve` mapping the bare root to the empty string, and build the
host as protocol-or-"http" followed by "//" and the parsed host. -/
def parseUrl (urlParse : String → UrlParts) (url : String) : ParsedUrl :=
  let parsed := urlParse url
  let path0 := pathResolve parsed.path
  let path := if path0 = "/" then "" else path0
  ⟨path, (parsed.protocol.getD "http") ++ "//" ++ parsed.host⟩

/-- The notify-email scope string pushed in `work` (line 71). -/
def notifyEmailScope (user : String) : String :=
  "queue:route:notify.email." ++ user ++ ".*"

/-- The scope list `work` builds before creating the queue client and
scheduling the graph (lines 67-71): the project's base scopes from the
registry with the submitting user's notify-email scope appended. -/
def workScopes (base : List String) (user : String) : List String :=
  base ++ [notifyEmailScope user]

/-- The queue-client configuration `work` constructs (lines 100-103):
the scope list, notify-email scope included, is installed verbatim as
`authorizedScopes`. -/
structure QueueConfig where
  authorizedScopes : List String
deriving Repr, DecidableEq

/-- The queue client `work` builds and the scope list it then passes to
`scheduleTaskGroup` (lines 100-110): both are the same `workScopes`
list. -/
def workQueueAndScopes (base : List String) (user : String) :
    QueueConfig × List String :=
  (⟨workScopes base user⟩, workScopes base user)

/-! Helper lemmas about the JS-`Set` deduplication. -/

theorem jsSetInsert_mem (acc : List String) (x y : String) :
    y ∈ jsSetInsert acc x ↔ y ∈ acc ∨ y = x := by
  unfold jsSetInsert
  split
  · rename_i hx
    constructor
    · exact Or.inl
    · rintro (h | rfl)
      · exact h
      · exact hx
  · simp

theorem foldl_jsSetInsert_mem (l : List String) :
    ∀ (acc : List String) (y : String),
      y ∈ l.foldl jsSetInsert acc ↔ y ∈ acc ∨ y ∈ l := by
  induction l with
  | nil => simp
  | cons x xs ih =>
      intro acc y
      rw [List.foldl_cons, ih, jsSetInsert_mem]
      simp
      tauto

theorem jsSetList_mem (l : List String) (y : String) :
    y ∈ jsSetList l ↔ y ∈ l := by
  unfold jsSetList
  rw [foldl_jsSetInsert_mem]
  simp

theorem jsSetInsert_nodup (acc : List String) (x : String) (h : acc.Nodup) :
    (jsSetInsert acc x).Nodup := by
  unfold jsSetInsert
  split
  · exact h
  · rename_i hx
    simp [List.nodup_append, h, hx]

theorem foldl_jsSetInsert_nodup (l : List String) :
    ∀ acc : List String, acc.Nodup → (l.foldl jsSetInsert acc).Nodup := by
  induction l with
  | nil => intro acc h; simpa
  | cons x xs ih => intro acc h; exact ih _ (jsSetInsert_nodup _ _ h)

theorem jsSetList_nodup (l : List String) : (jsSetList l).Nodup :=
  foldl_jsSetInsert_nodup l [] List.nodup_nil

/-! Helper lemmas about the submission loop. -/

/-- Once a nonempty group id is set, every later call carries it. -/
theorem submitTasks_calls_groupId (scopes : List String)
    (client : Nat → String → TaskDef → Option String) (ids : Nat → String)
    (entries : List Entry) :
    ∀ (i : Nat) (g : String), g ≠ "" →
      ∀ c ∈ (submitTasks scopes client ids entries i g).calls,
        c.2.taskGroupId = some g := by
  induction entries with
  | nil => intro i g hg c hc; simp [submitTasks] at hc
  | cons e es ih =>
      intro i g hg c hc
      simp only [submitTasks, if_neg hg] at hc
      split at hc
      · cases hc with
        | head => rfl
        | tail _ hc => exact ih (i + 1) g hg c hc
      · cases hc with
        | head => rfl
        | tail _ hc => cases hc

/-- A task definition with every optional field absent and an empty
payload, for concrete instantiations. -/
def tdEmpty : TaskDef := ⟨none, none, none, ⟨none, []⟩, []⟩

/-- C1: for every rendered graph with at least one task, every
`createTask` call of the submission loop carries `taskGroupId` equal to
the freshly generated id of the first task (`ids 0`) — whatever
`taskGroupId` the template entries declared, since `entries` is
arbitrary — the id being written on the definition before the call is
recorded; and the first call is the one for that first task id. -/
theorem submitTasks_sharedGroupId (scopes : List String)
    (client : Nat → String → TaskDef → Option String) (ids : Nat → String)
    (entries : List Entry) (hne : entries ≠ []) (hid : ids 0 ≠ "") :
    (∀ c ∈ (submitTasks scopes client ids entries 0 "").calls,
        c.2.taskGroupId = some (ids 0)) ∧
    ((submitTasks scopes client ids entries 0 "").calls.head?.map Prod.fst
        = some (ids 0)) := by
  cases entries with
  | nil => exact absurd rfl hne
  | cons e es =>
      have hif : (if ("" : String) = "" then ids 0 else "") = ids 0 := if_pos rfl
      constructor
      · intro c hc
        simp only [submitTasks, hif] at hc
        split at hc
        · cases hc with
          | head => rfl
          | tail _ hc => exact submitTasks_calls_groupId scopes client ids es 1 (ids 0) hid c hc
        · cases hc with
          | head => rfl
          | tail _ hc => cases hc
      · simp only [submitTasks, hif]
        split <;> rfl

/-- Witness for C1 at a concrete two-entry graph with preset
`taskGroupId` fields, an always-accepting client and ids "t0", "t1". -/
theorem submitTasks_sharedGroupId_witness :
    ([Entry.wrapped { tdEmpty with taskGroupId := some "fromTemplate" },
      Entry.bare tdEmpty] ≠ ([] : List Entry)) ∧
    ((fun i => "t" ++ toString i) 0 ≠ "") ∧
    ((∀ c ∈ (submitTasks ["scope:a"] (fun _ _ _ => none) (fun i => "t" ++ toString i)
          [Entry.wrapped { tdEmpty with taskGroupId := some "fromTemplate" },
           Entry.bare tdEmpty] 0 "").calls,
        c.2.taskGroupId = some ((fun i => "t" ++ toString i) 0)) ∧
      ((submitTasks ["scope:a"] (fun _ _ _ => none) (fun i => "t" ++ toString i)
          [Entry.wrapped { tdEmpty with taskGroupId := some "fromTemplate" },
           Entry.bare tdEmpty] 0 "").calls.head?.map Prod.fst
        = some ((fun i => "t" ++ toString i) 0))) :=
  ⟨by decide, by decide,
   submitTasks_sharedGroupId ["scope:a"] (fun _ _ _ => none)
     (fun i => "t" ++ toString i)
     [Entry.wrapped { tdEmpty with taskGroupId := some "fromTemplate" },
      Entry.bare tdEmpty] (by decide) (by decide)⟩

/-- The `k`-th call of the submission loop submits the `k`-th entry's
definition, its scopes replaced by the deduplicated concatenation of the
declared scopes and the project scopes. -/
theorem submitTasks_calls_scopes (scopes : List String)
    (client : Nat → String → TaskDef → Option String) (ids : Nat → String) :
    ∀ (entries : List Entry) (i : Nat) (g : String) (k : Nat) (c : String × TaskDef),
      (submitTasks scopes client ids entries i g).calls[k]? = some c →
      ∃ ent, entries[k]? = some ent ∧
        c.2.scopes = some (jsSetList ((entryDef ent).scopes.getD [] ++ scopes)) := by
  intro entries
  induction entries with
  | nil => intro i g k c hc; simp [submitTasks] at hc
  | cons e es ih =>
      intro i g k c hc
      simp only [submitTasks] at hc
      split at hc
      · cases k with
        | zero =>
            simp only [List.getElem?_cons_zero, Option.some.injEq] at hc
            subst hc
            exact ⟨e, by simp, rfl⟩
        | succ k =>
            simp only [List.getElem?_cons_succ] at hc
            obtain ⟨ent, hent, hsc⟩ := ih (i + 1) _ k c hc
            exact ⟨ent, by simpa using hent, hsc⟩
      · cases k with
        | zero =>
            simp only [List.getElem?_cons_zero, Option.some.injEq] at hc
            subst hc
            exact ⟨e, by simp, rfl⟩
        | succ k => simp at hc

/-- C2: for every task the submission loop submits, the scopes written
onto the definition form a duplicate-free list whose members are exactly
the union of the entry's declared scopes (empty when the field is absent)
and the caller-supplied project scopes. -/
theorem submitTasks_scopesUnion (scopes : List String)
    (client : Nat → String → TaskDef → Option String) (ids : Nat → String)
    (entries : List Entry) (k : Nat) (c : String × TaskDef)
    (hc : (submitTasks scopes client ids entries 0 "").calls[k]? = some c) :
    ∃ ent, entries[k]? = some ent ∧
      ∃ l, c.2.scopes = some l ∧ l.Nodup ∧
        ∀ s, s ∈ l ↔ (s ∈ (entryDef ent).scopes.getD [] ∨ s ∈ scopes) := by
  obtain ⟨ent, hent, hsc⟩ := submitTasks_calls_scopes scopes client ids entries 0 "" k c hc
  refine ⟨ent, hent, jsSetList ((entryDef ent).scopes.getD [] ++ scopes), hsc,
    jsSetList_nodup _, ?_⟩
  intro s
  rw [jsSetList_mem, List.mem_append]

/-- Witness for C2: a task declaring scopes ["s1", "scope:a"] submitted
with project scopes ["scope:a", "scope:b"] ends up with the
duplicate-free union. -/
theorem submitTasks_scopesUnion_witness :
    ((submitTasks ["scope:a", "scope:b"] (fun _ _ _ => none) (fun _ => "tid")
        [Entry.wrapped { tdEmpty with scopes := some ["s1", "scope:a"] }] 0
        "").calls[0]? =
      some ("tid",
        { tdEmpty with
          scopes := some ["s1", "scope:a", "scope:b"],
          taskGroupId := some "tid" })) ∧
    (∃ ent, ([Entry.wrapped { tdEmpty with scopes := some ["s1", "scope:a"] }] :
        List Entry)[0]? = some ent ∧
      ∃ l, (("tid",
          { tdEmpty with
            scopes := some ["s1", "scope:a", "scope:b"],
            taskGroupId := some "tid" }) : String × TaskDef).2.scopes = some l ∧
        l.Nodup ∧
        ∀ s, s ∈ l ↔
          (s ∈ (entryDef ent).scopes.getD [] ∨ s ∈ ["scope:a", "scope:b"])) :=
  ⟨by decide,
   submitTasks_scopesUnion ["scope:a", "scope:b"] (fun _ _ _ => none) (fun _ => "tid")
     [Entry.wrapped { tdEmpty with scopes := some ["s1", "scope:a"] }] 0 _
     (by decide)⟩

/-- Counting lemma for the submission loop: when the client accepts every
call with index below `j + k - 1` and rejects every call at index
`j + k - 1`, a run starting at call index `j` over at least `k` entries
makes exactly `k` calls and propagates the rejection. -/
theorem submitTasks_failure_count (scopes : List String) (ids : Nat → String) :
    ∀ (entries : List Entry) (client : Nat → String → TaskDef → Option String)
      (j k : Nat) (g err : String),
      0 < k → k ≤ entries.length →
      (∀ i, j ≤ i → i < j + k - 1 → ∀ t d, client i t d = none) →
      (∀ t d, client (j + k - 1) t d = some err) →
      (submitTasks scopes client ids entries j g).calls.length = k ∧
      (submitTasks scopes client ids entries j g).failed = some err := by
  intro entries
  induction entries with
  | nil =>
      intro client j k g err hk hlen _ _
      simp only [List.length_nil, Nat.le_zero] at hlen
      omega
  | cons e es ih =>
      intro client j k g err hk hlen hok hfail
      simp only [submitTasks]
      by_cases hk1 : k = 1
      · subst hk1
        have hcj : ∀ t d, client j t d = some err := by simpa using hfail
        rw [hcj]
        exact ⟨rfl, rfl⟩
      · have hcj : client j (ids j)
            { entryDef e with
              scopes := some (jsSetList ((entryDef e).scopes.getD [] ++ scopes)),
              taskGroupId := some (if g = "" then ids j else g) } = none :=
          hok j (Nat.le_refl j) (by omega) _ _
        rw [hcj]
        have hidx : (j + 1) + (k - 1) - 1 = j + k - 1 := by omega
        obtain ⟨hlen', hfail'⟩ := ih client (j + 1) (k - 1) (if g = "" then ids j else g) err
          (by omega) (by simp at hlen; omega)
          (fun i hi1 hi2 t d => hok i (by omega) (by omega) t d)
          (by rw [hidx]; exact hfail)
        refine ⟨?_, hfail'⟩
        simp only [List.length_cons, hlen']
        omega

/-- C3: when the `k`-th `createTask` call fails (all earlier calls
succeed), the submission loop issues exactly `k` calls — the remaining
entries are abandoned — and propagates the failure to the caller; the
trace contains no operation other than the recorded `createTask` calls,
so nothing already created is ever rolled back. -/
theorem submitTasks_partialFailure (scopes : List String) (ids : Nat → String)
    (client : Nat → String → TaskDef → Option String) (entries : List Entry)
    (k : Nat) (err : String) (hk : 0 < k) (hlen : k ≤ entries.length)
    (hok : ∀ i, i < k - 1 → ∀ t d, client i t d = none)
    (hfail : ∀ t d, client (k - 1) t d = some err) :
    (submitTasks scopes client ids entries 0 "").calls.length = k ∧
    (submitTasks scopes client ids entries 0 "").failed = some err := by
  refine submitTasks_failure_count scopes ids entries client 0 k "" err hk hlen ?_ ?_
  · intro i _ hi t d
    exact hok i (by omega) t d
  · simpa using hfail

/-- Witness for C3: a 3-entry graph whose 2nd call is rejected produces
exactly 2 calls and surfaces the rejection. -/
theorem submitTasks_partialFailure_witness :
    (0 < 2) ∧
    (2 ≤ ([Entry.bare tdEmpty, Entry.bare tdEmpty, Entry.bare tdEmpty] :
        List Entry).length) ∧
    ((submitTasks ["scope:a"]
        (fun i _ _ => if i = 1 then some "InsufficientScopes" else none)
        (fun i => "t" ++ toString i)
        [Entry.bare tdEmpty, Entry.bare tdEmpty, Entry.bare tdEmpty] 0
        "").calls.length = 2 ∧
      (submitTasks ["scope:a"]
        (fun i _ _ => if i = 1 then some "InsufficientScopes" else none)
        (fun i => "t" ++ toString i)
        [Entry.bare tdEmpty, Entry.bare tdEmpty, Entry.bare tdEmpty] 0
        "").failed = some "InsufficientScopes") :=
  ⟨by decide, by decide,
   submitTasks_partialFailure ["scope:a"] (fun i => "t" ++ toString i)
     (fun i _ _ => if i = 1 then some "InsufficientScopes" else none)
     [Entry.bare tdEmpty, Entry.bare tdEmpty, Entry.bare tdEmpty] 2
     "InsufficientScopes" (by decide) (by decide)
     (by intro i hi t d; interval_cases i; simp)
     (by intro t d; simp)⟩

/-- C5: version detection in `renderTemplate` proceeds exactly as
described: (1) a successful structured parse reading `version = 0`
dispatches to the version-0 renderer; (2) a failed parse with the literal
substring "version: 0" in the raw text also dispatches to the version-0
renderer; (3) a failed parse without the substring propagates the parse
error; (4) a successful parse with any version other than 0 (a different
number, or an absent field) fails with the unsupported-version error. -/
theorem renderTemplate_versionDetection
    (safeLoad : String → Except String YamlDoc)
    (instantiate : String → Vars → Except String Graph)
    (template : String) (templateVariables : Vars) :
    (∀ d, safeLoad template = .ok d → d.version = some 0 →
        renderTemplate safeLoad instantiate template templateVariables =
          renderTemplateV0 instantiate template templateVariables) ∧
    (∀ e, safeLoad template = .error e → containsVersion0 template = true →
        renderTemplate safeLoad instantiate template templateVariables =
          renderTemplateV0 instantiate template templateVariables) ∧
    (∀ e, safeLoad template = .error e → containsVersion0 template = false →
        renderTemplate safeLoad instantiate template templateVariables = .error e) ∧
    (∀ d, safeLoad template = .ok d → d.version ≠ some 0 →
        renderTemplate safeLoad instantiate template templateVariables =
          .error unrecognizedVersionError) := by
  refine ⟨?_, ?_, ?_, ?_⟩ <;> intro x h1 h2 <;> simp [renderTemplate, h1, h2]

/-- Witness for C5, one concrete instance per detection branch: a parse
yielding version 0; a parse failure over text containing "version: 0"; a
parse failure over text without the marker; and a parse yielding
version 1. -/
theorem renderTemplate_versionDetection_witness :
    (renderTemplate (fun _ => .ok ⟨some 0⟩) (fun _ _ => .ok ⟨[]⟩) "tmplA" ⟨1, []⟩ =
        renderTemplateV0 (fun _ _ => .ok ⟨[]⟩) "tmplA" ⟨1, []⟩) ∧
    (renderTemplate (fun _ => .error "YAMLException") (fun _ _ => .ok ⟨[]⟩)
        "x version: 0 y" ⟨1, []⟩ =
        renderTemplateV0 (fun _ _ => .ok ⟨[]⟩) "x version: 0 y" ⟨1, []⟩) ∧
    (renderTemplate (fun _ => .error "YAMLException") (fun _ _ => .ok ⟨[]⟩)
        "no marker" ⟨1, []⟩ = .error "YAMLException") ∧
    (renderTemplate (fun _ => .ok ⟨some 1⟩) (fun _ _ => .ok ⟨[]⟩) "tmplB" ⟨1, []⟩ =
        .error unrecognizedVersionError) :=
  ⟨(renderTemplate_versionDetection (fun _ => .ok ⟨some 0⟩) (fun _ _ => .ok ⟨[]⟩)
      "tmplA" ⟨1, []⟩).1 ⟨some 0⟩ rfl rfl,
   (renderTemplate_versionDetection (fun _ => .error "YAMLException")
      (fun _ _ => .ok ⟨[]⟩) "x version: 0 y" ⟨1, []⟩).2.1 "YAMLException" rfl (by decide),
   (renderTemplate_versionDetection (fun _ => .error "YAMLException")
      (fun _ _ => .ok ⟨[]⟩) "no marker" ⟨1, []⟩).2.2.1 "YAMLException" rfl (by decide),
   (renderTemplate_versionDetection (fun _ => .ok ⟨some 1⟩) (fun _ _ => .ok ⟨[]⟩)
      "tmplB" ⟨1, []⟩).2.2.2 ⟨some 1⟩ rfl (by decide)⟩

/-- Counterexample to C6 as stated: the version-0 renderer does not
accept a bare task entry — its scheduler-id injection writes through the
entry's `task` property, so a graph whose sole entry is a bare task
definition makes `renderTemplateV0` throw instead of rendering. -/
theorem renderTemplateV0_bare_counterexample :
    renderTemplateV0 (fun _ _ => .ok ⟨[Entry.bare tdEmpty]⟩) "version: 0" ⟨3, []⟩ =
      .error typeErrorSetOnUndefined := by decide

/-- Scheduler-id injection succeeds on a wrapped-only entry list and
stamps every inner definition. -/
theorem injectSchedulerId_wrapped (sid : String) :
    ∀ ts : List Entry, (∀ e ∈ ts, ∃ td, e = Entry.wrapped td) →
      ∃ ts', injectSchedulerId sid ts = .ok ts' ∧ ts'.length = ts.length ∧
        ∀ e ∈ ts', ∃ td, e = Entry.wrapped td ∧ td.schedulerId = some sid := by
  intro ts
  induction ts with
  | nil => intro _; exact ⟨[], rfl, rfl, by simp⟩
  | cons e es ih =>
      intro hw
      obtain ⟨td, rfl⟩ := hw e (List.mem_cons_self e es)
      obtain ⟨ts', hts', hlen, hall⟩ := ih (fun x hx => hw x (List.mem_cons_of_mem _ hx))
      refine ⟨Entry.wrapped { td with schedulerId := some sid } :: ts', ?_, by simp [hlen], ?_⟩
      · simp [injectSchedulerId, hts', Except.map]
      · intro x hx
        cases hx with
        | head => exact ⟨{ td with schedulerId := some sid }, rfl, rfl⟩
        | tail _ hx => exact hall x hx

/-- C6 (amended): for every version-0 template whose substituted form
renders to a graph of `task:`-wrapped entries, `renderTemplateV0`
succeeds and injects the scheduler identity "gecko-level-" + level into
every task; a bare entry instead makes the injection throw (the
bare-form tolerance lives only in the submission loop's unwrap). -/
theorem renderTemplateV0_schedulerId
    (instantiate : String → Vars → Except String Graph)
    (template : String) (templateVariables : Vars) (g : Graph)
    (hinst : instantiate template templateVariables = .ok g)
    (hw : ∀ e ∈ g.tasks, ∃ td, e = Entry.wrapped td) :
    ∃ g', renderTemplateV0 instantiate template templateVariables = .ok g' ∧
      g'.tasks.length = g.tasks.length ∧
      ∀ e ∈ g'.tasks, ∃ td, e = Entry.wrapped td ∧
        td.schedulerId = some ("gecko-level-" ++ toString templateVariables.level) := by
  obtain ⟨ts', hts', hlen, hall⟩ :=
    injectSchedulerId_wrapped ("gecko-level-" ++ toString templateVariables.level) g.tasks hw
  exact ⟨⟨ts'⟩, by simp [renderTemplateV0, hinst, hts', Except.map], hlen, hall⟩

/-- Witness for the amended C6: a single wrapped task rendered at level 3
comes out with scheduler id "gecko-level-3". -/
theorem renderTemplateV0_schedulerId_witness :
    ((fun (_ : String) (_ : Vars) =>
          (Except.ok ⟨[Entry.wrapped tdEmpty]⟩ : Except String Graph))
        "t" ⟨3, []⟩ = (Except.ok ⟨[Entry.wrapped tdEmpty]⟩ : Except String Graph)) ∧
    (∀ e ∈ (⟨[Entry.wrapped tdEmpty]⟩ : Graph).tasks, ∃ td, e = Entry.wrapped td) ∧
    (∃ g', renderTemplateV0
        (fun _ _ => (Except.ok ⟨[Entry.wrapped tdEmpty]⟩ : Except String Graph))
        "t" ⟨3, []⟩ = Except.ok g' ∧
      g'.tasks.length = (⟨[Entry.wrapped tdEmpty]⟩ : Graph).tasks.length ∧
      ∀ e ∈ g'.tasks, ∃ td, e = Entry.wrapped td ∧
        td.schedulerId = some ("gecko-level-" ++ toString (⟨3, []⟩ : Vars).level)) :=
  ⟨rfl, fun e he => ⟨tdEmpty, by simpa using he⟩,
   renderTemplateV0_schedulerId
     (fun _ _ => (Except.ok ⟨[Entry.wrapped tdEmpty]⟩ : Except String Graph)) "t" ⟨3, []⟩
     ⟨[Entry.wrapped tdEmpty]⟩ rfl (fun e he => ⟨tdEmpty, by simpa using he⟩)⟩

/-- C4: whenever rendering the project template throws (parse failure,
unsupported version, or any other error) and the project's error template
renders to a single wrapped task, the fallback succeeds: it renders the
error template with the same variables and yields a one-task graph whose
payload environment carries the original failure's message in its
error-message field. -/
theorem renderOrFallback_errorTask (safeLoad : String → Except String YamlDoc)
    (instantiate : String → Vars → Except String Graph)
    (template : String) (templateVariables : Vars) (errorGraphTemplate : String)
    (e : String) (td : TaskDef)
    (hrender : renderTemplate safeLoad instantiate template templateVariables = .error e)
    (herr : instantiate errorGraphTemplate templateVariables = .ok ⟨[Entry.wrapped td]⟩) :
    ∃ td', renderOrFallback safeLoad instantiate template templateVariables
        errorGraphTemplate = .ok ⟨[Entry.wrapped td']⟩ ∧
      ∃ env, td'.payload.env = some env ∧ env.errorMsg = some e := by
  simp only [renderOrFallback, hrender, herr, applyErrorFallback]
  exact ⟨_, rfl, _, rfl, rfl⟩

/-- Witness for C4: an unparsable template without the legacy marker plus
an error template rendering to one wrapped task (with a payload lacking
an `env`) produce a one-task graph carrying the parse error's message. -/
theorem renderOrFallback_errorTask_witness :
    (renderTemplate (fun _ => Except.error "YAMLException: bad indent")
        (fun t _ => if t = "errTmpl" then Except.ok ⟨[Entry.wrapped tdEmpty]⟩
          else Except.error "unused") "broken" ⟨1, []⟩ =
      Except.error "YAMLException: bad indent") ∧
    ((fun (t : String) (_ : Vars) => if t = "errTmpl" then
          Except.ok (⟨[Entry.wrapped tdEmpty]⟩ : Graph) else Except.error "unused")
        "errTmpl" ⟨1, []⟩ = Except.ok (⟨[Entry.wrapped tdEmpty]⟩ : Graph)) ∧
    (∃ td', renderOrFallback (fun _ => Except.error "YAMLException: bad indent")
        (fun t _ => if t = "errTmpl" then Except.ok ⟨[Entry.wrapped tdEmpty]⟩
          else Except.error "unused") "broken" ⟨1, []⟩ "errTmpl" =
        Except.ok ⟨[Entry.wrapped td']⟩ ∧
      ∃ env, td'.payload.env = some env ∧
        env.errorMsg = some "YAMLException: bad indent") :=
  ⟨by decide, by decide,
   renderOrFallback_errorTask (fun _ => Except.error "YAMLException: bad indent")
     (fun t _ => if t = "errTmpl" then Except.ok ⟨[Entry.wrapped tdEmpty]⟩
       else Except.error "unused") "broken" ⟨1, []⟩ "errTmpl"
     "YAMLException: bad indent" tdEmpty (by decide) (by decide)⟩

/-- A task definition whose payload environment already carries the
error message "PRE", for the C8 analysis. -/
def tdPreset : TaskDef :=
  { tdEmpty with payload := Payload.mk (some (Env.mk (some "PRE") [])) [] }

/-- Counterexample to C8 as stated: an error task whose rendered payload
environment already carries ERROR_MSG "PRE" does not keep it — the
fallback overwrites it with the new failure's message. -/
theorem applyErrorFallback_counterexample :
    (applyErrorFallback ⟨[Entry.wrapped tdPreset]⟩ "Error: boom" =
      .ok ⟨[Entry.wrapped
        { tdEmpty with payload := Payload.mk (some (Env.mk (some "Error: boom") [])) [] }]⟩) ∧
    some "Error: boom" ≠ some "PRE" := by decide

/-- C8 (amended): the fallback always assigns the error-message field of
the first task's payload environment to the failure's message, creating
the environment object when absent and overwriting any pre-existing
value; the environment's other fields, the rest of the definition, and
the remaining tasks are untouched. -/
theorem applyErrorFallback_always_sets (g : Graph) (msg : String) (td : TaskDef)
    (restTasks : List Entry) (hg : g.tasks = Entry.wrapped td :: restTasks) :
    applyErrorFallback g msg =
      .ok ⟨Entry.wrapped
        { td with
            payload :=
              { td.payload with
                  env := some ⟨some msg, (td.payload.env.getD ⟨none, []⟩).rest⟩ } } ::
        restTasks⟩ := by
  cases g
  simp only at hg
  subst hg
  rfl

/-- A task definition whose payload environment holds a pre-existing
error message and an unrelated binding, for the C8 witness. -/
def tdPresetKV : TaskDef :=
  { tdEmpty with payload := Payload.mk (some (Env.mk (some "PRE") [("K", "V")])) [] }

/-- Witness for the amended C8 at a first task whose environment holds a
pre-existing error message and an unrelated binding: the message is
overwritten, the binding kept. -/
theorem applyErrorFallback_always_sets_witness :
    ((⟨[Entry.wrapped tdPresetKV]⟩ : Graph).tasks = Entry.wrapped tdPresetKV :: []) ∧
    (applyErrorFallback ⟨[Entry.wrapped tdPresetKV]⟩ "Error: later" =
      .ok ⟨Entry.wrapped
        { tdEmpty with
          payload := Payload.mk (some (Env.mk (some "Error: later") [("K", "V")])) [] } ::
        []⟩) :=
  ⟨rfl,
   applyErrorFallback_always_sets ⟨[Entry.wrapped tdPresetKV]⟩ "Error: later"
     tdPresetKV [] rfl⟩

/-- When every attempt fails, the retry combinator makes retries + 1
attempts and surfaces the last attempt's error. -/
theorem retryRun_allFail (attempt : Nat → Except String String) (errOf : Nat → String)
    (hfail : ∀ i, attempt i = .error (errOf i)) :
    ∀ n i, retryRun attempt n i = (n + 1, .error (errOf (i + n))) := by
  intro n
  induction n with
  | zero => intro i; simp [retryRun, hfail i]
  | succ m ih =>
      intro i
      have hstep := hfail i
      have harith : i + 1 + m = i + (m + 1) := by omega
      simp only [retryRun, hstep, ih (i + 1), harith]

/-- C7: for a url at which every HTTP attempt fails, `fetchGraph` makes
exactly GRAPH_RETIRES + 1 = 3 attempts and fails with an error that
names the url and wraps the last underlying cause; the configured
inter-attempt interval is 5000 ms and the per-attempt timeout 30000 ms. -/
theorem fetchGraph_exhaustion (attempt : Nat → Except String String) (url : String)
    (errOf : Nat → String) (hurl : url ≠ "")
    (hfail : ∀ i, attempt i = .error (errOf i)) :
    fetchGraph attempt url =
      (GRAPH_RETIRES + 1,
        .error ("Could not fetch graph at " ++ url ++ "\n " ++ errOf GRAPH_RETIRES)) ∧
    GRAPH_RETIRES + 1 = 3 ∧ GRAPH_INTERVAL = 5000 ∧ GRAPH_REQ_TIMEOUT = 30000 := by
  refine ⟨?_, rfl, rfl, rfl⟩
  have h := retryRun_allFail attempt errOf hfail GRAPH_RETIRES 0
  simp only [fetchGraph, if_neg hurl, h, Nat.zero_add]

/-- Witness for C7 at a concrete always-failing attempt sequence: three
attempts, and the final error wraps the third attempt's cause under the
url. -/
theorem fetchGraph_exhaustion_witness :
    ("https://hg.mozilla.org/try/raw-file/tip/.taskcluster.yml" ≠ "") ∧
    (∀ i : Nat, (fun (j : Nat) => (Except.error ("ECONNREFUSED " ++ toString j) :
        Except String String)) i = .error ("ECONNREFUSED " ++ toString i)) ∧
    (fetchGraph (fun (j : Nat) => Except.error ("ECONNREFUSED " ++ toString j))
        "https://hg.mozilla.org/try/raw-file/tip/.taskcluster.yml" =
      (GRAPH_RETIRES + 1,
        .error ("Could not fetch graph at " ++
          "https://hg.mozilla.org/try/raw-file/tip/.taskcluster.yml" ++ "\n " ++
          ("ECONNREFUSED " ++ toString GRAPH_RETIRES))) ∧
      GRAPH_RETIRES + 1 = 3 ∧ GRAPH_INTERVAL = 5000 ∧ GRAPH_REQ_TIMEOUT = 30000) :=
  ⟨by decide, fun i => rfl,
   fetchGraph_exhaustion (fun (j : Nat) => Except.error ("ECONNREFUSED " ++ toString j))
     "https://hg.mozilla.org/try/raw-file/tip/.taskcluster.yml"
     (fun (j : Nat) => "ECONNREFUSED " ++ toString j) (by decide) (fun i => rfl)⟩

/-- A resolved path always begins with the root slash, hence is never
empty. -/
theorem pathResolve_ne_empty (p : String) : pathResolve p ≠ "" := by
  unfold pathResolve
  intro h
  have hdata := congrArg String.data h
  simp at hdata

/-- C9: for every parsed URL, `parseUrl` returns the host built as the
reported scheme (defaulting to "http" when absent) followed by "//" and
the hostname-with-optional-port, and the path equal to the normalized
path component, the empty string exactly when that component is the bare
root. -/
theorem parseUrl_spec (urlParse : String → UrlParts) (url : String) :
    ((parseUrl urlParse url).host =
        ((urlParse url).protocol.getD "http") ++ "//" ++ (urlParse url).host) ∧
    ((parseUrl urlParse url).path = "" ↔ pathResolve (urlParse url).path = "/") ∧
    ((parseUrl urlParse url).path ≠ "" →
        (parseUrl urlParse url).path = pathResolve (urlParse url).path) := by
  unfold parseUrl
  refine ⟨rfl, ?_, ?_⟩
  · by_cases h : pathResolve (urlParse url).path = "/"
    · simp [h]
    · simp only [h, if_false, iff_false]
      exact fun hc => absurd hc (pathResolve_ne_empty _)
  · by_cases h : pathResolve (urlParse url).path = "/"
    · intro hne
      simp [h] at hne
    · intro _
      simp [h]

/-- Witness for C9 at the parse of "https://hg.mozilla.org/try/": host
"https://hg.mozilla.org" and path "/try". -/
theorem parseUrl_spec_witness :
    ((parseUrl (fun _ => ⟨some "https:", "hg.mozilla.org", "/try/"⟩)
        "https://hg.mozilla.org/try/").host =
      (((fun (_ : String) => (⟨some "https:", "hg.mozilla.org", "/try/"⟩ : UrlParts))
          "https://hg.mozilla.org/try/").protocol.getD "http") ++ "//" ++
        ((fun (_ : String) => (⟨some "https:", "hg.mozilla.org", "/try/"⟩ : UrlParts))
          "https://hg.mozilla.org/try/").host ∧
      (((parseUrl (fun _ => ⟨some "https:", "hg.mozilla.org", "/try/"⟩)
          "https://hg.mozilla.org/try/").path = "" ↔
        pathResolve "/try/" = "/")) ∧
      ((parseUrl (fun _ => ⟨some "https:", "hg.mozilla.org", "/try/"⟩)
          "https://hg.mozilla.org/try/").path ≠ "" →
        (parseUrl (fun _ => ⟨some "https:", "hg.mozilla.org", "/try/"⟩)
          "https://hg.mozilla.org/try/").path = pathResolve "/try/")) ∧
    (parseUrl (fun _ => ⟨some "https:", "hg.mozilla.org", "/try/"⟩)
        "https://hg.mozilla.org/try/" = ⟨"/try", "https://hg.mozilla.org"⟩) :=
  ⟨parseUrl_spec (fun _ => ⟨some "https:", "hg.mozilla.org", "/try/"⟩)
     "https://hg.mozilla.org/try/",
   by decide⟩

/-- C10: the scope list `work` builds appends the submitting user's
notify-email scope to the project's base scopes; that list is installed
as the queue client's `authorizedScopes` and handed to the submitter, so
every createTask call's definition carries the notify-email scope among
its scopes. -/
theorem work_notifyEmailScope (base : List String) (user : String)
    (client : Nat → String → TaskDef → Option String) (ids : Nat → String)
    (entries : List Entry) :
    (notifyEmailScope user ∈ (workQueueAndScopes base user).1.authorizedScopes) ∧
    ((workQueueAndScopes base user).1.authorizedScopes =
      (workQueueAndScopes base user).2) ∧
    (∀ c ∈ (submitTasks (workQueueAndScopes base user).2 client ids entries 0 "").calls,
      ∃ l, c.2.scopes = some l ∧ notifyEmailScope user ∈ l) := by
  refine ⟨by simp [workQueueAndScopes, workScopes], rfl, ?_⟩
  intro c hc
  rw [List.mem_iff_getElem?] at hc
  obtain ⟨k, hk⟩ := hc
  obtain ⟨ent, _, hsc⟩ :=
    submitTasks_calls_scopes (workQueueAndScopes base user).2 client ids entries 0 "" k c hk
  refine ⟨_, hsc, ?_⟩
  rw [jsSetList_mem, List.mem_append]
  right
  simp [workQueueAndScopes, workScopes]

/-- Witness for C10 at a concrete base scope list, user and one-task
graph. -/
theorem work_notifyEmailScope_witness :
    (notifyEmailScope "jdoe@mozilla.com" ∈
      (workQueueAndScopes ["scope:a"] "jdoe@mozilla.com").1.authorizedScopes) ∧
    ((workQueueAndScopes ["scope:a"] "jdoe@mozilla.com").1.authorizedScopes =
      (workQueueAndScopes ["scope:a"] "jdoe@mozilla.com").2) ∧
    (∀ c ∈ (submitTasks (workQueueAndScopes ["scope:a"] "jdoe@mozilla.com").2
        (fun _ _ _ => none) (fun _ => "tid") [Entry.bare tdEmpty] 0 "").calls,
      ∃ l, c.2.scopes = some l ∧ notifyEmailScope "jdoe@mozilla.com" ∈ l) :=
  work_notifyEmailScope ["scope:a"] "jdoe@mozilla.com" (fun _ _ _ => none)
    (fun _ => "tid") [Entry.bare tdEmpty]

end TCGraph
